import Mathlib

/-!
Verification of the MindsDB statement-dispatch and virtual-catalog subsystem.

The definitions below are a shallow embedding of:
  mindsdb/api/mysql/mysql_proxy/datahub/datanodes/information_schema_datanode.py
  mindsdb/api/mysql/mysql_proxy/datahub/datanodes/project_datanode.py
  mindsdb/api/mysql/mysql_proxy/executor/executor_commands.py

Collaborators that live outside those files (controllers, the parser AST
helpers, the generic tabular evaluator) are represented either as explicit
function parameters or as data carried by an environment record; where such a
collaborator is modelled, the doc comment says so and follows the design
document.  Python exceptions are modelled with an explicit error type and
Except-valued functions; mutable context state is threaded explicitly.
-/

namespace MindsDB

/-- Runtime values appearing in catalog rows and SQL constants. -/
inductive Value where
  | str (s : String)
  | intv (n : Int)
  | boolv (b : Bool)
  | strlist (ss : List String)
  | null
deriving DecidableEq, Repr

/-- Exception taxonomy of the subsystem: each constructor corresponds to one
exception class raised by the python code (ErBadTableError, ErTableExistError,
ErNotSupportedYet, ErBadDbError, SqlApiException, ValueError, AttributeError,
plus a catch-all for plain Exception). -/
inductive PyExc where
  | badTable (msg : String)
  | tableExist (msg : String)
  | notSupported (msg : String)
  | badDb (msg : String)
  | sqlApi (msg : String)
  | valueError (msg : String)
  | attributeError (msg : String)
  | other (msg : String)
deriving DecidableEq, Repr

/-- Expression nodes of the parsed SQL AST that this subsystem inspects:
Constant, Identifier, Star and BinaryOperation (with its two arguments). -/
inductive Expr where
  | const (v : Value)
  | ident (parts : List String)
  | star
  | binop (op : String) (lhs rhs : Expr)
deriving DecidableEq, Repr

/-- From-clause of a Select: a plain (possibly qualified) identifier or a join
of two from-clauses. -/
inductive FromTable where
  | tbl (parts : List String)
  | join (l r : FromTable)
deriving DecidableEq, Repr

/-- Select statement shape: the fields of the AST node that this subsystem
reads (targets, from_table, where, limit). -/
structure SelectQ where
  targets : List Expr := []
  fromTable : FromTable
  whereCond : Option Expr := none
  limit : Option Nat := none
deriving DecidableEq, Repr

/-- Modelled from the spec: get_all_tables of
mindsdb/api/mysql/mysql_proxy/classes/sql_query.py is not under src/; per the
design document the catalog receives the set of tables referenced by the
statement, here the unqualified (last) name of every identifier in the
from-clause. -/
def get_all_tables : FromTable → List String
  | .tbl parts => [parts.getLastD ("")]
  | .join l r => get_all_tables l ++ get_all_tables r

/-- Upper-casing of a string (the python upper method). -/
def py_upper (s : String) : String := String.mk (s.data.map Char.toUpper)

/-- Lower-casing of a string (the python lower method). -/
def py_lower (s : String) : String := String.mk (s.data.map Char.toLower)

/-- Static registry of virtual table name to ordered column list, copied from
InformationSchemaDataNode.information_schema. -/
def informationSchemaTables : List (String × List String) := [
  ("SCHEMATA", ["CATALOG_NAME", "SCHEMA_NAME", "DEFAULT_CHARACTER_SET_NAME",
    "DEFAULT_COLLATION_NAME", "SQL_PATH"]),
  ("TABLES", ["TABLE_CATALOG", "TABLE_SCHEMA", "TABLE_NAME", "TABLE_TYPE",
    "ENGINE", "VERSION", "ROW_FORMAT", "TABLE_ROWS", "AVG_ROW_LENGTH",
    "DATA_LENGTH", "MAX_DATA_LENGTH", "INDEX_LENGTH", "DATA_FREE",
    "AUTO_INCREMENT", "CREATE_TIME", "UPDATE_TIME", "CHECK_TIME",
    "TABLE_COLLATION", "CHECKSUM", "CREATE_OPTIONS", "TABLE_COMMENT"]),
  ("COLUMNS", ["TABLE_CATALOG", "TABLE_SCHEMA", "TABLE_NAME", "COLUMN_NAME",
    "ORDINAL_POSITION", "COLUMN_DEFAULT", "IS_NULLABLE", "DATA_TYPE",
    "CHARACTER_MAXIMUM_LENGTH", "CHARACTER_OCTET_LENGTH", "NUMERIC_PRECISION",
    "NUMERIC_SCALE", "DATETIME_PRECISION", "CHARACTER_SET_NAME",
    "COLLATION_NAME", "COLUMN_TYPE", "COLUMN_KEY", "EXTRA", "PRIVILEGES",
    "COLUMN_COMMENT", "GENERATION_EXPRESSION"]),
  ("EVENTS", ["EVENT_CATALOG", "EVENT_SCHEMA", "EVENT_NAME", "DEFINER",
    "TIME_ZONE", "EVENT_BODY", "EVENT_DEFINITION", "EVENT_TYPE", "EXECUTE_AT",
    "INTERVAL_VALUE", "INTERVAL_FIELD", "SQL_MODE", "STARTS", "ENDS",
    "STATUS", "ON_COMPLETION", "CREATED", "LAST_ALTERED", "LAST_EXECUTED",
    "EVENT_COMMENT", "ORIGINATOR", "CHARACTER_SET_CLIENT",
    "COLLATION_CONNECTION", "DATABASE_COLLATION"]),
  ("ROUTINES", ["SPECIFIC_NAME", "ROUTINE_CATALOG", "ROUTINE_SCHEMA",
    "ROUTINE_NAME", "ROUTINE_TYPE", "DATA_TYPE", "CHARACTER_MAXIMUM_LENGTH",
    "CHARACTER_OCTET_LENGTH", "NUMERIC_PRECISION", "NUMERIC_SCALE",
    "DATETIME_PRECISION", "CHARACTER_SET_NAME", "COLLATION_NAME",
    "DTD_IDENTIFIER", "ROUTINE_BODY", "ROUTINE_DEFINITION", "EXTERNAL_NAME",
    "EXTERNAL_LANGUAGE", "PARAMETER_STYLE", "IS_DETERMINISTIC",
    "SQL_DATA_ACCESS", "SQL_PATH", "SECURITY_TYPE", "CREATED", "LAST_ALTERED",
    "SQL_MODE", "ROUTINE_COMMENT", "DEFINER", "CHARACTER_SET_CLIENT",
    "COLLATION_CONNECTION", "DATABASE_COLLATION"]),
  ("TRIGGERS", ["TRIGGER_CATALOG", "TRIGGER_SCHEMA", "TRIGGER_NAME",
    "EVENT_MANIPULATION", "EVENT_OBJECT_CATALOG", "EVENT_OBJECT_SCHEMA",
    "EVENT_OBJECT_TABLE", "ACTION_ORDER", "ACTION_CONDITION",
    "ACTION_STATEMENT", "ACTION_ORIENTATION", "ACTION_TIMING",
    "ACTION_REFERENCE_OLD_TABLE", "ACTION_REFERENCE_NEW_TABLE",
    "ACTION_REFERENCE_OLD_ROW", "ACTION_REFERENCE_NEW_ROW", "CREATED",
    "SQL_MODE", "DEFINER", "CHARACTER_SET_CLIENT", "COLLATION_CONNECTION",
    "DATABASE_COLLATION"]),
  ("PLUGINS", ["PLUGIN_NAME", "PLUGIN_VERSION", "PLUGIN_STATUS",
    "PLUGIN_TYPE", "PLUGIN_TYPE_VERSION", "PLUGIN_LIBRARY",
    "PLUGIN_LIBRARY_VERSION", "PLUGIN_AUTHOR", "PLUGIN_DESCRIPTION",
    "PLUGIN_LICENSE", "LOAD_OPTION", "PLUGIN_MATURITY",
    "PLUGIN_AUTH_VERSION"]),
  ("ENGINES", ["ENGINE", "SUPPORT", "COMMENT", "TRANSACTIONS", "XA",
    "SAVEPOINTS"]),
  ("KEY_COLUMN_USAGE", ["CONSTRAINT_CATALOG", "CONSTRAINT_SCHEMA",
    "CONSTRAINT_NAME", "TABLE_CATALOG", "TABLE_SCHEMA", "TABLE_NAME",
    "COLUMN_NAME", "ORDINAL_POSITION", "POSITION_IN_UNIQUE_CONSTRAINT",
    "REFERENCED_TABLE_SCHEMA", "REFERENCED_TABLE_NAME",
    "REFERENCED_COLUMN_NAME"]),
  ("STATISTICS", ["TABLE_CATALOG", "TABLE_SCHEMA", "TABLE_NAME",
    "NON_UNIQUE", "INDEX_SCHEMA", "INDEX_NAME", "SEQ_IN_INDEX", "COLUMN_NAME",
    "COLLATION", "CARDINALITY", "SUB_PART", "PACKED", "NULLABLE",
    "INDEX_TYPE", "COMMENT", "INDEX_COMMENT", "IS_VISIBLE", "EXPRESSION"]),
  ("CHARACTER_SETS", ["CHARACTER_SET_NAME", "DEFAULT_COLLATE_NAME",
    "DESCRIPTION", "MAXLEN"]),
  ("COLLATIONS", ["COLLATION_NAME", "CHARACTER_SET_NAME", "ID", "IS_DEFAULT",
    "IS_COMPILED", "SORTLEN", "PAD_ATTRIBUTE"]),
  ("MODELS", ["NAME", "ENGINE", "PROJECT", "VERSION", "STATUS", "ACCURACY",
    "PREDICT", "UPDATE_STATUS", "MINDSDB_VERSION", "ERROR",
    "SELECT_DATA_QUERY", "TRAINING_OPTIONS", "CURRENT_TRAINING_PHASE",
    "TOTAL_TRAINING_PHASES", "TRAINING_PHASE_NAME", "TAG", "CREATED_AT",
    "TRAINING_TIME"]),
  ("MODELS_VERSIONS", ["NAME", "ENGINE", "PROJECT", "ACTIVE", "VERSION",
    "STATUS", "ACCURACY", "PREDICT", "UPDATE_STATUS", "MINDSDB_VERSION",
    "ERROR", "SELECT_DATA_QUERY", "TRAINING_OPTIONS", "TAG", "CREATED_AT",
    "TRAINING_TIME"]),
  ("DATABASES", ["NAME", "TYPE", "ENGINE", "CONNECTION_DATA"]),
  ("ML_ENGINES", ["NAME", "HANDLER", "CONNECTION_DATA"]),
  ("HANDLERS", ["NAME", "TYPE", "TITLE", "DESCRIPTION", "VERSION",
    "CONNECTION_ARGS", "IMPORT_SUCCESS", "IMPORT_ERROR"]),
  ("JOBS", ["NAME", "PROJECT", "START_AT", "END_AT", "NEXT_RUN_AT",
    "SCHEDULE_STR", "QUERY", "VARIABLES"]),
  ("MDB_TRIGGERS", ["NAME", "PROJECT", "DATABASE", "TABLE", "QUERY",
    "LAST_ERROR"]),
  ("JOBS_HISTORY", ["NAME", "PROJECT", "RUN_START", "RUN_END", "ERROR",
    "QUERY"]),
  ("CHATBOTS", ["NAME", "PROJECT", "DATABASE", "MODEL_NAME", "PARAMS",
    "IS_RUNNING", "LAST_ERROR"]),
  ("KNOWLEDGE_BASES", ["NAME", "PROJECT", "MODEL", "STORAGE"]),
  ("SKILLS", ["NAME", "PROJECT", "TYPE", "PARAMS"]),
  ("AGENTS", ["NAME", "PROJECT", "MODEL_NAME", "SKILLS", "PARAMS"])]

/-- Embedding of InformationSchemaDataNode.has_table. -/
def has_table (tableName : String) : Bool :=
  (informationSchemaTables.lookup (py_upper tableName)).isSome

/-- Embedding of InformationSchemaDataNode.get_table_columns: a defined name
yields the registry column list, an undefined one raises ErTableExistError. -/
def get_table_columns (tableName : String) : Except PyExc (List String) :=
  match informationSchemaTables.lookup (py_upper tableName) with
  | some cols => .ok cols
  | none => .error (.tableExist
      (("Table information_schema." ++ tableName) ++ " does not exists"))

/-- Catalog row of the TABLES view.  The TablesRow class itself
(datahub/classes/tables_row.py) is not under src/; modelled from the spec
(section 3, Catalog Row): the fields this subsystem reads and writes are the
owning schema, the table name and the table type; the schema of a row built
for a virtual table defaults to the catalog itself. -/
structure TablesRow where
  TABLE_SCHEMA : String := "information_schema"
  TABLE_NAME : String
  TABLE_TYPE : String
deriving DecidableEq, Repr

/-- Conversion of a TablesRow to the ordered TABLES tuple; the remaining 17
compatibility columns carry no data in this subsystem and are null. -/
def TablesRow.to_list (r : TablesRow) : List Value :=
  [.str ("def"), .str r.TABLE_SCHEMA, .str r.TABLE_NAME, .str r.TABLE_TYPE]
    ++ List.replicate 17 Value.null

/-- Tabular result: ordered column names plus rows of values. -/
structure DataFrame where
  columns : List String
  rows : List (List Value)
deriving DecidableEq, Repr

/-- Dict-like controller record (loosely-typed metadata row): field name to
value, read with a total lookup. -/
structure RecordRow where
  fields : List (String × Value)
deriving DecidableEq, Repr

/-- Lookup of one field of a controller record (row[k] in the python code;
the controller contract guarantees the key is present). -/
def rget (r : RecordRow) (k : String) : Value :=
  (r.fields.lookup k).getD Value.null

/-- Persistent child data node (the files node): its table names and their
columns.  IntegrationDataNode internals are not under src/; modelled from the
spec as the get_tables / get_table_columns contract it exposes. -/
structure PersisData where
  name : String
  tableNames : List String := []
  columns : List (String × List String) := []
deriving DecidableEq, Repr

/-- Decidable equality for Except results, used by the record types below. -/
instance {ε α : Type} [DecidableEq ε] [DecidableEq α] :
    DecidableEq (Except ε α) := fun x y =>
  match x, y with
  | .ok a, .ok b =>
    if h : a = b then isTrue (by rw [h])
    else isFalse (fun hc => h (Except.ok.inj hc))
  | .error e, .error f =>
    if h : e = f then isTrue (by rw [h])
    else isFalse (fun hc => h (Except.error.inj hc))
  | .ok _, .error _ => isFalse (fun hc => Except.noConfusion hc)
  | .error _, .ok _ => isFalse (fun hc => Except.noConfusion hc)

/-- Registered integration as seen by the catalog: registry metadata plus the
outcome of asking the integration for its table list (which may raise). -/
structure IntegrationRec where
  name : String
  typ : String := "data"
  engine : Option String := none
  connection_data : Option String := none
  tablesResult : Except PyExc (List TablesRow) := .ok []
deriving DecidableEq, Repr

/-- Model entry of a project as returned by project.get_models: name, the
metadata dict and the created_at timestamp. -/
structure ModelEntry where
  name : String
  metadata : List (String × Value) := []
  created_at : Value := .null
deriving DecidableEq, Repr

/-- Metadata lookup on a model entry (table_meta[k] in the python code). -/
def mget (m : ModelEntry) (k : String) : Value :=
  (m.metadata.lookup k).getD Value.null

/-- Registered project: id, name, its tables (as catalog rows), the column
lists of its tables, and its model entries. -/
structure ProjectData where
  name : String
  id : Nat := 0
  tables : List TablesRow := []
  columns : List (String × List String) := []
  models : List ModelEntry := []
deriving DecidableEq, Repr

/-- Database registry entry (database_controller.get_list element). -/
structure DBRec where
  name : String
  typ : String := "data"
  engine : Value := .null
  connection_data : Option String := none
deriving DecidableEq, Repr

/-- Handler import-status entry (fields already normalized the way
_get_handlers reads them: connection args stringified, import flags). -/
structure HandlerRec where
  name : String
  typ : Value := .null
  title : Value := .null
  description : Value := .null
  version : Value := .null
  connection_args : Value := .null
  import_success : Value := .null
  import_error : Value := .null
deriving DecidableEq, Repr

/-- Knowledge-base record as listed by the knowledge-base controller. -/
structure KBRec where
  name : String
  project_id : Nat
  embedding_model_name : String
  vector_database_name : String
  vector_database_table : String
deriving DecidableEq, Repr

/-- Skill record held by the skills controller. -/
structure SkillRec where
  name : String
  project : String
  typ : String
  params : Value := .null
deriving DecidableEq, Repr

/-- Agent record held by the agents controller. -/
structure AgentRec where
  name : String
  project : String
  model_name : String
  skills : List String := []
  params : Value := .null
deriving DecidableEq, Repr

/-- Collaborator state visible to the catalog: the live registries and
controller stores that the producers read.  Controllers themselves are not
under src/; per the spec each one is the owner of the listed records and its
listing operation optionally filters by project. -/
structure Env where
  persisDatanodes : List PersisData := []
  integrations : List IntegrationRec := []
  projects : List ProjectData := []
  databasesList : List DBRec := []
  handlers : List HandlerRec := []
  jobs : List RecordRow := []
  jobsHistory : List RecordRow := []
  triggers : List RecordRow := []
  chatbots : List RecordRow := []
  kbs : List KBRec := []
  skills : List SkillRec := []
  agents : List AgentRec := []
deriving DecidableEq, Repr

/-- Embedding of InformationSchemaDataNode.get_integrations_names: all
integration names except the exact name files, lowercased. -/
def get_integrations_names (env : Env) : List String :=
  ((env.integrations.map (fun i => i.name)).filter (fun x => x ≠ "files")).map
    py_lower

/-- Embedding of InformationSchemaDataNode.get_projects_names. -/
def get_projects_names (env : Env) : List String :=
  (env.projects.map (fun p => p.name)).map py_lower

/-- Matching of one AND-chain member against the TABLE_SCHEMA equality
pattern searched by _get_tables. -/
def eqTableSchemaTarget : Expr → Option Value
  | .binop op (.ident parts) (.const v) =>
    if op = "=" then
      match parts.getLast? with
      | some p => if py_upper p = "TABLE_SCHEMA" then some v else none
      | none => none
    else none
  | _ => none

/-- Pushdown extraction of _get_tables (lines 478 to 493): a constant bound
to TABLE_SCHEMA by equality directly under a top-level AND, first argument
wins. -/
def extract_table_schema : Option Expr → Option Value
  | some (.binop op a b) =>
    if op = "and" then
      match eqTableSchemaTarget a with
      | some v => some v
      | none => eqTableSchemaTarget b
    else none
  | _ => none

/-- Pushdown extraction shared by the JOBS, JOBS_HISTORY, MDB_TRIGGERS,
CHATBOTS, KNOWLEDGE_BASES, SKILLS and AGENTS producers: the where clause must
be exactly a top-level equality whose left side is the bare identifier
project and whose right side is a constant.  Reading parts off a non
identifier left side raises AttributeError, as in the python code. -/
def extract_project_filter : Option Expr → Except PyExc (Option Value)
  | some (.binop op lhs rhs) =>
    if op = "=" then
      match lhs with
      | .ident parts =>
        if parts = ["project"] then
          match rhs with
          | .const v => .ok (some v)
          | _ => .ok none
        else .ok none
      | _ => .error (.attributeError ("object has no attribute parts"))
    else .ok none
  | _ => .ok none

/-- Value stored in a row for a pushed-down project name (python None
becomes null). -/
def pnValue : Option Value → Value
  | some v => v
  | none => .null

/-- Skip test of the _get_tables loops: a source is kept when no table_schema
constant was pushed down or when that constant equals the source name. -/
def tablesRowMatches (target : Option Value) (name : String) : Bool :=
  match target with
  | none => true
  | some v => v = .str name

/-- Column list of a registry table (empty for an unknown name; the callers
only use registry keys). -/
def registryColumns (name : String) : List String :=
  (informationSchemaTables.lookup name).getD []

/-- Row set built by InformationSchemaDataNode._get_tables: one SYSTEM VIEW
row per virtual table, then the rows of the persistent children, the
integrations and the projects, each tagged with its owning schema name; every
loop honours the pushed-down table_schema constant, and an integration whose
table listing raises is skipped. -/
def _get_tables_rows (env : Env) (q : SelectQ) : List TablesRow :=
  let target := extract_table_schema q.whereCond
  let virtualRows := informationSchemaTables.filterMap (fun tc =>
    if tablesRowMatches target tc.1 then
      some { TABLE_NAME := tc.1, TABLE_TYPE := "SYSTEM VIEW" }
    else none)
  let persisRows := env.persisDatanodes.flatMap (fun ds =>
    if tablesRowMatches target ds.name then
      ds.tableNames.map (fun t =>
        { TABLE_SCHEMA := ds.name, TABLE_NAME := t,
          TABLE_TYPE := "BASE TABLE" : TablesRow })
    else [])
  let integrationRows :=
    (env.integrations.filter (fun i => i.name ≠ "files")).flatMap (fun i =>
      let dsName := py_lower i.name
      if tablesRowMatches target dsName then
        match i.tablesResult with
        | .ok rows => rows.map (fun r => { r with TABLE_SCHEMA := dsName })
        | .error _ => []
      else [])
  let projectRows := env.projects.flatMap (fun p =>
    let pname := py_lower p.name
    if tablesRowMatches target pname then
      p.tables.map (fun r => { r with TABLE_SCHEMA := pname })
    else [])
  virtualRows ++ persisRows ++ integrationRows ++ projectRows

/-- TABLES producer: the assembled rows as a data frame. -/
def _get_tables (env : Env) (q : SelectQ) : DataFrame :=
  ⟨registryColumns ("TABLES"), (_get_tables_rows env q).map TablesRow.to_list⟩

/-- HANDLERS producer. -/
def _get_handlers (env : Env) : DataFrame :=
  ⟨registryColumns ("HANDLERS"), env.handlers.map (fun h =>
    [.str h.name, h.typ, h.title, h.description, h.version,
     h.connection_args, h.import_success, h.import_error])⟩

/-- Value of an optional string field (python None becomes null). -/
def optStr : Option String → Value
  | some s => .str s
  | none => .null

/-- ML_ENGINES producer: one row per integration of type ml. -/
def _get_ml_engines (env : Env) : DataFrame :=
  ⟨registryColumns ("ML_ENGINES"),
    (env.integrations.filter (fun i => i.typ = "ml")).map (fun i =>
      [.str i.name, optStr i.engine, optStr i.connection_data])⟩

/-- DATABASES producer: connection data is stringified opaquely. -/
def _get_databases (env : Env) : DataFrame :=
  ⟨registryColumns ("DATABASES"), env.databasesList.map (fun d =>
    [.str d.name, .str d.typ, d.engine,
     .str (match d.connection_data with
       | some s => s
       | none => "None")])⟩

/-- SCHEMATA producer. -/
def _get_schemata (env : Env) : DataFrame :=
  ⟨registryColumns ("SCHEMATA"), env.databasesList.map (fun d =>
    [.str ("def"), .str d.name, .str ("utf8mb4"),
     .str ("utf8mb4_0900_ai_ci"), .null])⟩

/-- ENGINES producer (static row). -/
def _get_engines : DataFrame :=
  ⟨registryColumns ("ENGINES"),
    [[.str ("InnoDB"), .str ("DEFAULT"),
      .str ("Supports transactions, row-level locking, and foreign keys"),
      .str ("YES"), .str ("YES"), .str ("YES")]]⟩

/-- CHARACTER_SETS producer (static rows). -/
def _get_charsets : DataFrame :=
  ⟨registryColumns ("CHARACTER_SETS"),
    [[.str ("utf8"), .str ("UTF-8 Unicode"), .str ("utf8_general_ci"),
      .intv 3],
     [.str ("latin1"), .str ("cp1252 West European"),
      .str ("latin1_swedish_ci"), .intv 1],
     [.str ("utf8mb4"), .str ("UTF-8 Unicode"), .str ("utf8mb4_general_ci"),
      .intv 4]]⟩

/-- COLLATIONS producer (static rows). -/
def _get_collations : DataFrame :=
  ⟨registryColumns ("COLLATIONS"),
    [[.str ("utf8_general_ci"), .str ("utf8"), .intv 33, .str ("Yes"),
      .str ("Yes"), .intv 1, .str ("PAD SPACE")],
     [.str ("latin1_swedish_ci"), .str ("latin1"), .intv 8, .str ("Yes"),
      .str ("Yes"), .intv 1, .str ("PAD SPACE")]]⟩

/-- MODELS producer: one row per active model version across all projects. -/
def _get_models (env : Env) : DataFrame :=
  ⟨registryColumns ("MODELS"), env.projects.flatMap (fun p =>
    p.models.filterMap (fun m =>
      if mget m ("active") = .boolv true then
        some [.str m.name, mget m ("engine"), .str (py_lower p.name),
          mget m ("version"), mget m ("status"), mget m ("accuracy"),
          mget m ("predict"), mget m ("update_status"),
          mget m ("mindsdb_version"), mget m ("error"),
          mget m ("select_data_query"), mget m ("training_options"),
          mget m ("current_training_phase"),
          mget m ("total_training_phases"), mget m ("training_phase_name"),
          mget m ("label"), m.created_at, mget m ("training_time")]
      else none))⟩

/-- MODELS_VERSIONS producer: one row per model version, active flag
included. -/
def _get_models_versions (env : Env) : DataFrame :=
  ⟨registryColumns ("MODELS_VERSIONS"), env.projects.flatMap (fun p =>
    p.models.map (fun m =>
      [.str m.name, mget m ("engine"), .str (py_lower p.name),
       mget m ("active"), mget m ("version"), mget m ("status"),
       mget m ("accuracy"), mget m ("predict"), mget m ("update_status"),
       mget m ("mindsdb_version"), mget m ("error"),
       mget m ("select_data_query"), mget m ("training_options"),
       mget m ("label"), m.created_at, mget m ("training_time")]))⟩

/-- Modelled from the spec: a controller listing operation, optionally
filtered by the pushed-down project name (the controllers are external
collaborators). -/
def controller_list (records : List RecordRow) (pn : Option Value) :
    List RecordRow :=
  match pn with
  | none => records
  | some v => records.filter (fun r => rget r ("project") = v)

/-- Conversion of a controller record to an ordered row, reading each
registry column case-normalized (row[k] for k in columns_lower). -/
def record_to_row (r : RecordRow) (columns : List String) : List Value :=
  columns.map (fun c => rget r (py_lower c))

/-- JOBS producer. -/
def _get_jobs (env : Env) (q : SelectQ) : Except PyExc DataFrame := do
  let pn ← extract_project_filter q.whereCond
  let data := controller_list env.jobs pn
  .ok ⟨registryColumns ("JOBS"),
    data.map (fun r => record_to_row r (registryColumns ("JOBS")))⟩

/-- JOBS_HISTORY producer. -/
def _get_jobs_history (env : Env) (q : SelectQ) : Except PyExc DataFrame := do
  let pn ← extract_project_filter q.whereCond
  let data := controller_list env.jobsHistory pn
  .ok ⟨registryColumns ("JOBS_HISTORY"),
    data.map (fun r => record_to_row r (registryColumns ("JOBS_HISTORY")))⟩

/-- MDB_TRIGGERS producer. -/
def _get_triggers (env : Env) (q : SelectQ) : Except PyExc DataFrame := do
  let pn ← extract_project_filter q.whereCond
  let data := controller_list env.triggers pn
  .ok ⟨registryColumns ("MDB_TRIGGERS"),
    data.map (fun r => record_to_row r (registryColumns ("MDB_TRIGGERS")))⟩

/-- CHATBOTS producer. -/
def _get_chatbots (env : Env) (q : SelectQ) : Except PyExc DataFrame := do
  let pn ← extract_project_filter q.whereCond
  let data := controller_list env.chatbots pn
  .ok ⟨registryColumns ("CHATBOTS"),
    data.map (fun r => record_to_row r (registryColumns ("CHATBOTS")))⟩

/-- Modelled from the spec: ProjectController.get resolves a project by name
to a record carrying an id and fails with a clear error when the project
does not exist (section 4.2, KNOWLEDGE_BASES edge case). -/
def project_controller_get (env : Env) (pn : Option Value) :
    Except PyExc Nat :=
  match pn with
  | some (.str s) =>
    match env.projects.find? (fun p => p.name = s) with
    | some p => .ok p.id
    | none => .error (.valueError ("Project not found: " ++ s))
  | _ => .error (.valueError ("Project not found"))

/-- KNOWLEDGE_BASES producer: resolves the pushed-down project name to an id
before listing, then tags every row with the pushed-down name. -/
def _get_knowledge_bases (env : Env) (q : SelectQ) :
    Except PyExc DataFrame := do
  let pn ← extract_project_filter q.whereCond
  let pid ← project_controller_get env pn
  let kbList := env.kbs.filter (fun kb => kb.project_id = pid)
  .ok ⟨registryColumns ("KNOWLEDGE_BASES"), kbList.map (fun kb =>
    [.str kb.name, pnValue pn, .str kb.embedding_model_name,
     .str (kb.vector_database_name ++ "." ++ kb.vector_database_table)])⟩

/-- Modelled from the spec: SkillsController.get_skills, optionally filtered
by project name. -/
def skills_controller_get (env : Env) (pn : Option Value) : List SkillRec :=
  match pn with
  | none => env.skills
  | some v => env.skills.filter (fun s => Value.str s.project = v)

/-- SKILLS producer: every row carries the pushed-down project constant in
its PROJECT column. -/
def _get_skills (env : Env) (q : SelectQ) : Except PyExc DataFrame := do
  let pn ← extract_project_filter q.whereCond
  let allSkills := skills_controller_get env pn
  .ok ⟨registryColumns ("SKILLS"), allSkills.map (fun s =>
    [.str s.name, pnValue pn, .str s.typ, s.params])⟩

/-- Modelled from the spec: AgentsController.get_agents, optionally filtered
by project name. -/
def agents_controller_get (env : Env) (pn : Option Value) : List AgentRec :=
  match pn with
  | none => env.agents
  | some v => env.agents.filter (fun a => Value.str a.project = v)

/-- AGENTS producer: every row carries the pushed-down project constant in
its PROJECT column. -/
def _get_agents (env : Env) (q : SelectQ) : Except PyExc DataFrame := do
  let pn ← extract_project_filter q.whereCond
  let allAgents := agents_controller_get env pn
  .ok ⟨registryColumns ("AGENTS"), allAgents.map (fun a =>
    [.str a.name, pnValue pn, .str a.model_name, .strlist a.skills,
     a.params])⟩

/-- Resolution result of InformationSchemaDataNode.get. -/
inductive DataNodeRef where
  | infoschema
  | persis (d : PersisData)
  | integration (i : IntegrationRec)
  | project (p : ProjectData)
deriving DecidableEq, Repr

/-- Embedding of InformationSchemaDataNode.get: case-insensitive resolution
against the catalog itself, the persistent children, then the database
registry (integration or project); null when nothing matches. -/
def datanode_get (env : Env) (name : String) : Option DataNodeRef :=
  let nameLower := py_lower name
  if nameLower = "information_schema" then some .infoschema
  else
    match env.persisDatanodes.find? (fun d => d.name = nameLower) with
    | some d => some (.persis d)
    | none =>
      match env.databasesList.find? (fun d => py_lower d.name = nameLower) with
      | none => none
      | some dmeta =>
        if dmeta.typ = "integration" then
          (env.integrations.find? (fun i => i.name = dmeta.name)).map
            .integration
        else if dmeta.typ = "project" then
          (env.projects.find? (fun p => p.name = dmeta.name)).map .project
        else
          (env.integrations.find? (fun i => py_lower i.name = nameLower)).map
            .integration

/-- Generic-text column descriptor row of _get_columns (the text template
with schema, table, column and ordinal filled in). -/
def text_template_row (schema table column : String) (i : Nat) : List Value :=
  [.str ("def"), .str schema, .str table, .str column, .intv (i : Int),
   .null, .str ("YES"), .str ("varchar"), .intv 1024, .intv 3072, .null,
   .null, .null, .str ("utf8"), .str ("utf8_bin"), .str ("varchar(1024)"),
   .null, .null, .str ("select"), .null, .null]

/-- COLUMNS producer: descriptor rows for every virtual table, for the
mindsdb project tables and for the files child.  The python code resolves
MINDSDB and FILES through get and fails (AttributeError on None) when they
are absent; resolutions to other node shapes are not exercised by this
subsystem and are modelled as the same failure. -/
def _get_columns (env : Env) : Except PyExc DataFrame :=
  let registryRows := informationSchemaTables.flatMap (fun tc =>
    tc.2.enum.map (fun ic =>
      text_template_row ("information_schema") tc.1 ic.2 ic.1))
  match datanode_get env ("MINDSDB"), datanode_get env ("FILES") with
  | some (.project p), some (.persis f) =>
    let mindsdbRows := p.tables.flatMap (fun tr =>
      ((p.columns.lookup tr.TABLE_NAME).getD []).enum.map (fun ic =>
        text_template_row ("mindsdb") tr.TABLE_NAME ic.2 ic.1))
    let filesRows := f.tableNames.flatMap (fun tn =>
      ((f.columns.lookup tn).getD []).enum.map (fun ic =>
        text_template_row ("files") tn ic.2 ic.1))
    .ok ⟨registryColumns ("COLUMNS"), registryRows ++ mindsdbRows ++ filesRows⟩
  | _, _ => .error (.attributeError ("datanode is not available"))

/-- Producer for a registry table without a dedicated function: the defined
columns with zero rows. -/
def _get_empty_table (tableName : String) : DataFrame :=
  ⟨registryColumns tableName, []⟩

/-- Dispatch table get_dataframe_funcs built by the constructor: the
dedicated producers plus the empty-table default for every other registry
key. -/
def information_schema_producer (env : Env) (name : String) (q : SelectQ) :
    Except PyExc DataFrame :=
  match name with
  | "TABLES" => .ok (_get_tables env q)
  | "COLUMNS" => _get_columns env
  | "SCHEMATA" => .ok (_get_schemata env)
  | "ENGINES" => .ok _get_engines
  | "CHARACTER_SETS" => .ok _get_charsets
  | "COLLATIONS" => .ok _get_collations
  | "MODELS" => .ok (_get_models env)
  | "MODELS_VERSIONS" => .ok (_get_models_versions env)
  | "DATABASES" => .ok (_get_databases env)
  | "ML_ENGINES" => .ok (_get_ml_engines env)
  | "HANDLERS" => .ok (_get_handlers env)
  | "JOBS" => _get_jobs env q
  | "JOBS_HISTORY" => _get_jobs_history env q
  | "MDB_TRIGGERS" => _get_triggers env q
  | "CHATBOTS" => _get_chatbots env q
  | "KNOWLEDGE_BASES" => _get_knowledge_bases env q
  | "SKILLS" => _get_skills env q
  | "AGENTS" => _get_agents env q
  | other => .ok (_get_empty_table other)

/-- Modelled from the spec: dtype of one value, used to derive column type
descriptors from the result value types. -/
def dtype_of : Value → String
  | .str _ => "object"
  | .intv _ => "int64"
  | .boolv _ => "bool"
  | .strlist _ => "object"
  | .null => "object"

/-- Column descriptors derived from a result (name and dtype pairs). -/
def columns_info (df : DataFrame) : List (String × String) :=
  df.columns.enum.map (fun ic =>
    (ic.2, match df.rows.head? with
      | some r => dtype_of (r.getD ic.1 Value.null)
      | none => "object"))

/-- Embedding of InformationSchemaDataNode.query: exactly one referenced
table is required (ErBadTableError otherwise); an unknown table is
ErNotSupportedYet; otherwise the producer runs, the generic tabular
evaluator query_df (an external collaborator, passed as a function) applies
the residual statement, and the result is returned with derived column
descriptors. -/
def information_schema_query (env : Env)
    (query_df : DataFrame → SelectQ → DataFrame) (q : SelectQ) :
    Except PyExc (DataFrame × List (String × String)) :=
  match get_all_tables q.fromTable with
  | [t] =>
    let tableName := py_upper t
    if (informationSchemaTables.lookup tableName).isNone then
      .error (.notSupported ("Information schema: Not implemented."))
    else do
      let df ← information_schema_producer env tableName q
      let data := query_df df q
      .ok (data, columns_info data)
  | _ =>
    .error (.badTable
      ("Only one table can be used in query to information_schema"))

/-- Execution-context state of query_context_controller: the list of
currently held (context kind, context id) pairs, most recent first. -/
def CtxState : Type := List (String × Option Nat)

/-- Acquisition of an execution context (set_context). -/
def set_context (name : String) (id : Option Nat) (st : CtxState) : CtxState :=
  (name, id) :: st

/-- Release of an execution context (release_context). -/
def release_context (name : String) (id : Option Nat) (st : CtxState) :
    CtxState :=
  List.erase st (name, id)

/-- Stored view resolved by project.query_view: its id and its stored
defining query. -/
structure ViewMeta where
  id : Nat
  query_ast : SelectQ
deriving Repr

/-- External collaborators of ProjectDataNode.query: the project metadata
store resolving a view, and the query engine executing the stored view query
(success flag and result frame, or an exception). -/
structure ProjectCollaborators where
  query_view : SelectQ → Except PyExc ViewMeta
  sql_query_fetch : SelectQ → Except PyExc (Bool × DataFrame)

/-- Catalog-backed table names recognized by ProjectDataNode.query. -/
def projectCatalogTables : List String :=
  ["models", "models_versions", "jobs", "jobs_history", "mdb_triggers",
   "chatbots", "skills", "agents"]

/-- Project equality filter injected by ProjectDataNode.query. -/
def project_eq_filter (projectName : String) : Expr :=
  .binop ("=") (.ident ["project"]) (.const (.str projectName))

/-- Embedding of ProjectDataNode.query.  The legacy name predictors is
rewritten to models; a catalog-backed table gets the project equality filter
AND-combined into a clone of the statement, which is forwarded to the
catalog; any other table is treated as a view: the stored view query runs
under the view execution context, which is released on every exit path, then
the original statement is applied residually to the view result.  The
context state is threaded explicitly. -/
def project_datanode_query (env : Env)
    (query_df : DataFrame → SelectQ → DataFrame)
    (collab : ProjectCollaborators) (projectName : String) (q : SelectQ)
    (st : CtxState) :
    Except PyExc (DataFrame × List (String × String)) × CtxState :=
  match q.fromTable with
  | .join _ _ => (.error (.attributeError ("object has no attribute parts")), st)
  | .tbl [] => (.error (.other ("IndexError: list index out of range")), st)
  | .tbl (p0 :: rest) =>
    let queryTable := if p0 = "predictors" then "models" else p0
    let q1 := if p0 = "predictors" then
        { q with fromTable := .tbl ("models" :: rest) }
      else q
    if queryTable ∈ projectCatalogTables then
      let newWhere := match q1.whereCond with
        | none => project_eq_filter projectName
        | some w => .binop ("and") w (project_eq_filter projectName)
      let newQuery := { q1 with whereCond := some newWhere }
      (information_schema_query env query_df newQuery, st)
    else
      match collab.query_view q1 with
      | .error e => (.error e, st)
      | .ok vm =>
        let st1 := set_context ("view") (some vm.id) st
        match collab.sql_query_fetch vm.query_ast with
        | .error e => (.error e, release_context ("view") (some vm.id) st1)
        | .ok res =>
          let st2 := release_context ("view") (some vm.id) st1
          if res.1 = false then
            (.error (.other ("Cant execute view query")), st2)
          else
            let df := query_df res.2 q1
            (.ok (df, columns_info df), st2)

/-- Validation step of ExecuteCommands.answer_create_view: when the parsed
view body is a Select it is executed with a forced limit of 1 under the
ignore execution context, released on every exit path; a failed check raises
SqlApiException, otherwise the definition is persisted. -/
def answer_create_view_check (isSelect : Bool) (fetch : Except PyExc Bool)
    (persist : Except PyExc Unit) (st : CtxState) :
    Except PyExc Unit × CtxState :=
  if isSelect then
    let st1 := set_context ("ignore") none st
    match fetch with
    | .error e => (.error e, release_context ("ignore") none st1)
    | .ok success =>
      let st2 := release_context ("ignore") none st1
      if success ≠ true then (.error (.sqlApi ("Wrong view query")), st2)
      else (persist, st2)
  else (persist, st)

/-- Show statement fields read by the router (category, FROM name, LIKE
pattern, WHERE condition, modes). -/
structure ShowStmt where
  category : String
  from_table : Option (List String) := none
  like : Option String := none
  whereCond : Option Expr := none
  modes : List String := []
deriving DecidableEq, Repr

/-- Embedding of _get_show_where: the initial filter, the FROM equality, the
LIKE filter and the statement WHERE are AND-folded left to right. -/
def get_show_where (stmt : ShowStmt) (from_name like_name : Option String)
    (initial : Option Expr) : Option Expr :=
  let parts0 : List Expr :=
    (match initial with
     | some i => [i]
     | none => []) ++
    (match stmt.from_table, from_name with
     | some ft, some fn =>
       [.binop ("=") (.ident [fn]) (.const (.str (ft.getLastD (""))))]
     | _, _ => []) ++
    (match stmt.like, like_name with
     | some l, some ln => [.binop ("like") (.ident [ln]) (.const (.str l))]
     | _, _ => []) ++
    (match stmt.whereCond with
     | some w => [w]
     | none => [])
  match parts0 with
  | [] => none
  | h :: t => some (t.foldl (fun prev next => .binop ("and") prev next) h)

/-- Where clause synthesized by the SHOW TABLES branch of the router: a
table_schema equality AND a disjunction of the four table types. -/
def show_tables_where (schema : String) : Expr :=
  .binop ("and")
    (.binop ("=") (.ident ["table_schema"]) (.const (.str schema)))
    (.binop ("or")
      (.binop ("=") (.ident ["table_type"]) (.const (.str ("MODEL"))))
      (.binop ("or")
        (.binop ("=") (.ident ["table_type"]) (.const (.str ("BASE TABLE"))))
        (.binop ("or")
          (.binop ("=") (.ident ["table_type"])
            (.const (.str ("SYSTEM VIEW"))))
          (.binop ("=") (.ident ["table_type"]) (.const (.str ("VIEW")))))))

/-- Embedding of the SHOW TABLES / SHOW FULL TABLES rewrite (router lines
268 to 341): the schema comes from the FROM clause or the session default
(mindsdb when none), and the statement becomes a SELECT against
information_schema.TABLES whose filter is built by _get_show_where from the
synthesized table_schema and table_type condition. -/
def show_tables_statement (sessionDb : Option String) (stmt : ShowStmt) :
    SelectQ :=
  let schema := match stmt.from_table with
    | some parts => parts.getLastD ("")
    | none => sessionDb.getD ("mindsdb")
  let stmt1 := { stmt with from_table := none }
  { targets := [.ident ["table_name"]],
    fromTable := .tbl ["information_schema", "TABLES"],
    whereCond := get_show_where stmt1 none (some ("Tables_in_" ++ schema))
      (some (show_tables_where schema)),
    limit := none }

/-- Answer of one router dispatch: an acknowledgement or a table. -/
inductive Answer where
  | ok
  | table (df : DataFrame)
deriving DecidableEq, Repr

/-- Embedding of the DropPredictor branch of execute_command, body part: the
project is resolved (explicit first name part, lowercased, or the session
database) and the model dropped through it; either step may raise. -/
def drop_predictor_body (sessionDb : String) (nameParts : List String)
    (get_project : String → Except PyExc Nat)
    (drop_model : Nat → String → Except PyExc Unit) : Except PyExc Unit := do
  let databaseName := if nameParts.length > 1 then
      py_lower (nameParts.headD (""))
    else sessionDb
  let modelName := nameParts.getLastD ("")
  let p ← get_project databaseName
  drop_model p modelName

/-- Embedding of the DropPredictor branch of execute_command: every
exception of the body is swallowed when if_exists is set, re-raised
otherwise; the branch ends with OK. -/
def drop_predictor_branch (sessionDb : String) (nameParts : List String)
    (if_exists : Bool) (get_project : String → Except PyExc Nat)
    (drop_model : Nat → String → Except PyExc Unit) : Except PyExc Answer :=
  match drop_predictor_body sessionDb nameParts get_project drop_model with
  | .ok _ => .ok .ok
  | .error e => if if_exists then .ok .ok else .error e

/-- Resolution of (project, entity) used by the skill, agent and
knowledge-base handlers: statement.name.parts[0] when qualified, else the
session database. -/
def resolve_head_project (sessionDb : String) (parts : List String) :
    String × String :=
  (if parts.length > 1 then parts.headD ("") else sessionDb,
   parts.getLastD (""))

/-- Resolution of (project, entity) used by the job, trigger and chatbot
handlers: statement.name.parts[-2] when qualified, else the session
database. -/
def resolve_penultimate_project (sessionDb : String) (parts : List String) :
    String × String :=
  (if parts.length > 1 then (parts.dropLast.getLastD ("")) else sessionDb,
   parts.getLastD (""))

/-- Embedding of ExecuteCommands.answer_create_skill: a controller
ValueError is re-raised as SqlApiException with the original message. -/
def answer_create_skill (sessionDb : String) (parts : List String)
    (add_skill : String → String → Except PyExc Unit) : Except PyExc Answer :=
  let r := resolve_head_project sessionDb parts
  match add_skill r.2 r.1 with
  | .ok _ => .ok .ok
  | .error (.valueError m) => .error (.sqlApi m)
  | .error e => .error e

/-- Embedding of ExecuteCommands.answer_drop_skill: a controller ValueError
is re-raised as SqlApiException with the original message. -/
def answer_drop_skill (sessionDb : String) (parts : List String)
    (delete_skill : String → String → Except PyExc Unit) :
    Except PyExc Answer :=
  let r := resolve_head_project sessionDb parts
  match delete_skill r.2 r.1 with
  | .ok _ => .ok .ok
  | .error (.valueError m) => .error (.sqlApi m)
  | .error e => .error e

/-- Embedding of ExecuteCommands.answer_update_skill: a controller
ValueError is re-raised as SqlApiException with the original message. -/
def answer_update_skill (sessionDb : String) (parts : List String)
    (update_skill : String → String → Except PyExc Unit) :
    Except PyExc Answer :=
  let r := resolve_head_project sessionDb parts
  match update_skill r.2 r.1 with
  | .ok _ => .ok .ok
  | .error (.valueError m) => .error (.sqlApi m)
  | .error e => .error e

/-- Embedding of ExecuteCommands.answer_create_agent. -/
def answer_create_agent (sessionDb : String) (parts : List String)
    (add_agent : String → String → Except PyExc Unit) : Except PyExc Answer :=
  let r := resolve_head_project sessionDb parts
  match add_agent r.2 r.1 with
  | .ok _ => .ok .ok
  | .error (.valueError m) => .error (.sqlApi m)
  | .error e => .error e

/-- Embedding of ExecuteCommands.answer_drop_agent. -/
def answer_drop_agent (sessionDb : String) (parts : List String)
    (delete_agent : String → String → Except PyExc Unit) :
    Except PyExc Answer :=
  let r := resolve_head_project sessionDb parts
  match delete_agent r.2 r.1 with
  | .ok _ => .ok .ok
  | .error (.valueError m) => .error (.sqlApi m)
  | .error e => .error e

/-- Embedding of ExecuteCommands.answer_update_agent. -/
def answer_update_agent (sessionDb : String) (parts : List String)
    (update_agent : String → String → Except PyExc Unit) :
    Except PyExc Answer :=
  let r := resolve_head_project sessionDb parts
  match update_agent r.2 r.1 with
  | .ok _ => .ok .ok
  | .error (.valueError m) => .error (.sqlApi m)
  | .error e => .error e

/-- Embedding of ExecuteCommands.answer_create_job: the controller call is
not guarded, every exception propagates unchanged. -/
def answer_create_job (sessionDb : String) (parts : List String)
    (add_job : String → String → Except PyExc Unit) : Except PyExc Answer :=
  let r := resolve_penultimate_project sessionDb parts
  match add_job r.2 r.1 with
  | .ok _ => .ok .ok
  | .error e => .error e

/-- Embedding of ExecuteCommands.answer_drop_job: the controller call is not
guarded, every exception propagates unchanged. -/
def answer_drop_job (sessionDb : String) (parts : List String)
    (delete_job : String → String → Except PyExc Unit) :
    Except PyExc Answer :=
  let r := resolve_penultimate_project sessionDb parts
  match delete_job r.2 r.1 with
  | .ok _ => .ok .ok
  | .error e => .error e

/-- Embedding of ExecuteCommands.answer_create_trigger: unguarded. -/
def answer_create_trigger (sessionDb : String) (parts : List String)
    (add_trigger : String → String → Except PyExc Unit) :
    Except PyExc Answer :=
  let r := resolve_penultimate_project sessionDb parts
  match add_trigger r.2 r.1 with
  | .ok _ => .ok .ok
  | .error e => .error e

/-- Embedding of ExecuteCommands.answer_drop_trigger: unguarded. -/
def answer_drop_trigger (sessionDb : String) (parts : List String)
    (delete_trigger : String → String → Except PyExc Unit) :
    Except PyExc Answer :=
  let r := resolve_penultimate_project sessionDb parts
  match delete_trigger r.2 r.1 with
  | .ok _ => .ok .ok
  | .error e => .error e

/-- Embedding of ExecuteCommands.answer_create_chatbot: a missing database
raises SqlApiException, the controller call itself is unguarded. -/
def answer_create_chatbot (sessionDb : String) (parts : List String)
    (database_id : Option Nat)
    (add_chatbot : String → String → Nat → Except PyExc Unit) :
    Except PyExc Answer :=
  let r := resolve_penultimate_project sessionDb parts
  match database_id with
  | none => .error (.sqlApi ("Database not found"))
  | some dbid =>
    match add_chatbot r.2 r.1 dbid with
    | .ok _ => .ok .ok
    | .error e => .error e

/-- Embedding of ExecuteCommands.answer_update_chatbot: a missing database
parameter raises SqlApiException, a missing chatbot (controller returns
None) raises SqlApiException, the controller call itself is unguarded. -/
def answer_update_chatbot (sessionDb : String) (parts : List String)
    (database_param : Option (Option Nat))
    (update_chatbot : String → String → Except PyExc (Option Unit)) :
    Except PyExc Answer :=
  let r := resolve_penultimate_project sessionDb parts
  match database_param with
  | some none => .error (.sqlApi ("Database not found"))
  | _ =>
    match update_chatbot r.2 r.1 with
    | .ok (some _) => .ok .ok
    | .ok none => .error (.sqlApi ("Chatbot not found"))
    | .error e => .error e

/-- Embedding of ExecuteCommands.answer_drop_chatbot: unguarded. -/
def answer_drop_chatbot (sessionDb : String) (parts : List String)
    (delete_chatbot : String → String → Except PyExc Unit) :
    Except PyExc Answer :=
  let r := resolve_penultimate_project sessionDb parts
  match delete_chatbot r.2 r.1 with
  | .ok _ => .ok .ok
  | .error e => .error e

/-- Embedding of ExecuteCommands.answer_create_kb: only the project
resolution is guarded (its ValueError becomes SqlApiException); the
knowledge-base controller call is unguarded. -/
def answer_create_kb (sessionDb : String) (parts : List String)
    (get_project : String → Except PyExc Nat)
    (kb_add : Nat → String → Except PyExc Unit) : Except PyExc Answer :=
  let r := resolve_head_project sessionDb parts
  match get_project r.1 with
  | .error (.valueError _) => .error (.sqlApi ("Project not found: " ++ r.1))
  | .error e => .error e
  | .ok pid =>
    match kb_add pid r.2 with
    | .ok _ => .ok .ok
    | .error e => .error e

/-- Embedding of ExecuteCommands.anwser_drop_kb: only the project resolution
is guarded; the knowledge-base controller call is unguarded. -/
def answer_drop_kb (sessionDb : String) (parts : List String)
    (get_project : String → Except PyExc Nat)
    (kb_delete : Nat → String → Except PyExc Unit) : Except PyExc Answer :=
  let r := resolve_head_project sessionDb parts
  match get_project r.1 with
  | .error (.valueError _) => .error (.sqlApi ("Project not found: " ++ r.1))
  | .error e => .error e
  | .ok pid =>
    match kb_delete pid r.2 with
    | .ok _ => .ok .ok
    | .error e => .error e

/-- Predictor status values read by the training guard. -/
inductive PredictorStatus where
  | generating
  | training
  | complete
  | errored
  | deleted
deriving DecidableEq, Repr

/-- Model record fields read by _sync_predictor_check; timestamps are in
seconds. -/
structure ModelTrainRec where
  status : PredictorStatus
  training_start_at : Option Int := none
  training_stop_at : Option Int := none
deriving DecidableEq, Repr

/-- One step of the shortest-training fold of _sync_predictor_check: a model
in status GENERATING or TRAINING with a start time and no stop time
contributes its elapsed time, and the minimum is kept. -/
def shortest_training_step (now : Int) (acc : Option Int)
    (m : ModelTrainRec) : Option Int :=
  if m.status = .generating ∨ m.status = .training then
    match m.training_start_at, m.training_stop_at with
    | some s, none =>
      let t := now - s
      match acc with
      | none => some t
      | some a => if t < a then some t else some a
    | _, _ => acc
  else acc

/-- Shortest elapsed training time among the eligible model records. -/
def shortest_training (now : Int) (models : List ModelTrainRec) :
    Option Int :=
  models.foldl (shortest_training_step now) none

/-- Test shortest_training is not None and shortest_training < 1 hour. -/
def under_hour : Option Int → Bool
  | some t => decide (t < 3600)
  | none => false

/-- Embedding of ExecuteCommands._sync_predictor_check: true exactly when
the guard raises SqlApiException, that is in hosted mode with user class 0
when the shortest current training time is under one hour (3600 s). -/
def _sync_predictor_check (is_cloud : Bool) (user_class : Nat)
    (models : List ModelTrainRec) (now : Int) : Bool :=
  if is_cloud ∧ user_class = 0 then
    under_hour (shortest_training now models)
  else false

/-- Error raised by the training guard (message abbreviated). -/
def sync_check_error (phase : String) : PyExc :=
  .sqlApi (("Cant start " ++ phase) ++
    " process while any other predictor is in status training or generating")

/-- Embedding of ExecuteCommands.answer_retrain_predictor: the steps before
the guard (model resolution, data-integration check, ML handler resolution,
lines 924 to 955) are summarized as one fallible pre-step; then the guard
runs, and only if it does not raise is the model controller delegated to.
The second component records whether retrain_model was invoked. -/
def answer_retrain_predictor (pre_steps : Except PyExc Unit)
    (is_cloud : Bool) (user_class : Nat) (models : List ModelTrainRec)
    (now : Int) (retrain_model : Except PyExc DataFrame) :
    Except PyExc Answer × Bool :=
  match pre_steps with
  | .error e => (.error e, false)
  | .ok _ =>
    if _sync_predictor_check is_cloud user_class models now then
      (.error (sync_check_error ("retrain")), false)
    else
      match retrain_model with
      | .error e => (.error e, true)
      | .ok df => (.ok (.table df), true)

/-- Names of the catalog rows of type SYSTEM VIEW owned by the catalog
schema itself. -/
def system_view_names (rows : List TablesRow) : List String :=
  (rows.filter (fun r =>
    r.TABLE_TYPE = "SYSTEM VIEW" ∧ r.TABLE_SCHEMA = "information_schema")).map
    (fun r => r.TABLE_NAME)

/-- Embedding of ExecuteCommands.answer_finetune_predictor: same structure
as retrain with the finetune pre-steps and delegate. -/
def answer_finetune_predictor (pre_steps : Except PyExc Unit)
    (is_cloud : Bool) (user_class : Nat) (models : List ModelTrainRec)
    (now : Int) (finetune_model : Except PyExc DataFrame) :
    Except PyExc Answer × Bool :=
  match pre_steps with
  | .error e => (.error e, false)
  | .ok _ =>
    if _sync_predictor_check is_cloud user_class models now then
      (.error (sync_check_error ("finetune")), false)
    else
      match finetune_model with
      | .error e => (.error e, true)
      | .ok df => (.ok (.table df), true)

/-- Sample integration with a healthy table listing, used to evaluate the
theorems on concrete inputs. -/
def sample_ok_integration : IntegrationRec :=
  { name := "ok_db", typ := "data",
    tablesResult := .ok
      [{ TABLE_SCHEMA := "x", TABLE_NAME := "t1",
         TABLE_TYPE := "BASE TABLE" }] }

/-- Sample integration whose table listing raises. -/
def sample_bad_integration : IntegrationRec :=
  { name := "bad_db", typ := "data",
    tablesResult := .error (.other ("connection refused")) }

/-- Sample unfiltered query against the TABLES virtual table. -/
def sample_tables_query : SelectQ := ⟨[], .tbl ["TABLES"], none, none⟩

/-- Sample model record that has been training for a short time. -/
def sample_training_model : ModelTrainRec :=
  { status := .training, training_start_at := some 0,
    training_stop_at := none }

/-- Sample project registered under the default schema name. -/
def sample_mindsdb_project : ProjectData :=
  { name := "mindsdb", id := 1,
    tables := [{ TABLE_NAME := "m1", TABLE_TYPE := "MODEL" }] }

/-- Sample environment with only the default project registered. -/
def sample_show_env : Env := { projects := [sample_mindsdb_project] }

/-- Release right after acquisition restores the context state. -/
theorem release_set_context (name : String) (id : Option Nat)
    (st : CtxState) : release_context name id (set_context name id st) = st :=
  List.erase_cons_head (name, id) st

/-- C6: the columns_of operation of the virtual catalog delegates to the
registry: for every name whose upper-cased form is defined it returns the
registry column list without error, and for every other name it fails with
the table-lookup error (ErTableExistError carrying the does-not-exist
message). -/
theorem get_table_columns_spec :
    (∀ n cols, informationSchemaTables.lookup (py_upper n) = some cols →
      get_table_columns n = .ok cols) ∧
    (∀ n, informationSchemaTables.lookup (py_upper n) = none →
      get_table_columns n = .error (.tableExist
        (("Table information_schema." ++ n) ++ " does not exists"))) := by
  constructor
  · intro n cols h
    simp [get_table_columns, h]
  · intro n h
    simp [get_table_columns, h]

/-- C6 witness: evaluation at the defined name models and at an undefined
name. -/
theorem get_table_columns_spec_witness :
    get_table_columns ("models") = .ok (registryColumns ("MODELS")) ∧
    get_table_columns ("nonexistent") = .error (.tableExist
      ("Table information_schema." ++ "nonexistent" ++ " does not exists")) :=
  ⟨get_table_columns_spec.1 ("models") (registryColumns ("MODELS"))
      (by decide),
   get_table_columns_spec.2 ("nonexistent") (by decide)⟩

/-- C10: with if_exists set, the DropPredictor branch returns OK and
swallows every exception raised while resolving the project or dropping the
model; without if_exists, any such exception propagates. -/
theorem drop_predictor_if_exists_swallows :
    (∀ sessionDb parts get_project drop_model,
      drop_predictor_branch sessionDb parts true get_project drop_model
        = .ok .ok) ∧
    (∀ sessionDb parts get_project drop_model e,
      drop_predictor_body sessionDb parts get_project drop_model = .error e →
      drop_predictor_branch sessionDb parts false get_project drop_model
        = .error e) := by
  constructor
  · intro sdb parts gp dm
    unfold drop_predictor_branch
    cases drop_predictor_body sdb parts gp dm <;> simp
  · intro sdb parts gp dm e h
    unfold drop_predictor_branch
    rw [h]
    rfl

/-- C10 witness: a failure of project resolution itself (the named project
does not exist, unrelated to the model) is swallowed under if_exists and
propagated without it. -/
theorem drop_predictor_if_exists_swallows_witness :
    drop_predictor_branch ("mindsdb") ["nonproj", "m1"] true
      (fun _ => .error (.valueError ("Project does not exist")))
      (fun _ _ => .ok ()) = .ok .ok ∧
    drop_predictor_branch ("mindsdb") ["nonproj", "m1"] false
      (fun _ => .error (.valueError ("Project does not exist")))
      (fun _ _ => .ok ()) = .error (.valueError ("Project does not exist")) :=
  ⟨drop_predictor_if_exists_swallows.1 ("mindsdb") ["nonproj", "m1"]
      (fun _ => .error (.valueError ("Project does not exist")))
      (fun _ _ => .ok ()),
   drop_predictor_if_exists_swallows.2 ("mindsdb") ["nonproj", "m1"]
      (fun _ => .error (.valueError ("Project does not exist")))
      (fun _ _ => .ok ()) (.valueError ("Project does not exist"))
      (by decide)⟩

/-- C4 counterexample: a ValueError raised by the jobs controller during
DROP JOB propagates to the caller unchanged, it is not re-raised as
SqlApiException, contradicting the claim for the job handlers. -/
theorem drop_job_valueerror_propagates_counterexample :
    answer_drop_job ("mindsdb") ["j1"]
      (fun _ _ => .error (.valueError ("Job j1 does not exist")))
      = .error (.valueError ("Job j1 does not exist")) := by
  rfl

/-- C4 (amended): the skill and agent handlers (create, drop, update)
re-raise a controller ValueError as SqlApiException with the original
message, and the knowledge-base handlers do so for the project-resolution
ValueError; the job, trigger and chatbot handlers, and the knowledge-base
controller calls themselves, propagate a ValueError unchanged. -/
theorem controller_valueerror_translation :
    (∀ sdb parts m,
      answer_create_skill sdb parts (fun _ _ => .error (.valueError m))
          = .error (.sqlApi m) ∧
      answer_drop_skill sdb parts (fun _ _ => .error (.valueError m))
          = .error (.sqlApi m) ∧
      answer_update_skill sdb parts (fun _ _ => .error (.valueError m))
          = .error (.sqlApi m) ∧
      answer_create_agent sdb parts (fun _ _ => .error (.valueError m))
          = .error (.sqlApi m) ∧
      answer_drop_agent sdb parts (fun _ _ => .error (.valueError m))
          = .error (.sqlApi m) ∧
      answer_update_agent sdb parts (fun _ _ => .error (.valueError m))
          = .error (.sqlApi m)) ∧
    (∀ sdb parts m,
      answer_create_job sdb parts (fun _ _ => .error (.valueError m))
          = .error (.valueError m) ∧
      answer_drop_job sdb parts (fun _ _ => .error (.valueError m))
          = .error (.valueError m) ∧
      answer_create_trigger sdb parts (fun _ _ => .error (.valueError m))
          = .error (.valueError m) ∧
      answer_drop_trigger sdb parts (fun _ _ => .error (.valueError m))
          = .error (.valueError m) ∧
      answer_drop_chatbot sdb parts (fun _ _ => .error (.valueError m))
          = .error (.valueError m) ∧
      (∀ dbid, answer_create_chatbot sdb parts (some dbid)
          (fun _ _ _ => .error (.valueError m)) = .error (.valueError m)) ∧
      answer_update_chatbot sdb parts none
          (fun _ _ => .error (.valueError m)) = .error (.valueError m)) ∧
    (∀ sdb parts m pid,
      answer_create_kb sdb parts (fun _ => .ok pid)
          (fun _ _ => .error (.valueError m)) = .error (.valueError m) ∧
      answer_drop_kb sdb parts (fun _ => .ok pid)
          (fun _ _ => .error (.valueError m)) = .error (.valueError m) ∧
      answer_drop_kb sdb parts (fun _ => .error (.valueError m))
          (fun _ _ => .ok ())
          = .error (.sqlApi
              ("Project not found: " ++ (resolve_head_project sdb parts).1))) := by
  refine ⟨fun sdb parts m => ⟨rfl, rfl, rfl, rfl, rfl, rfl⟩,
    fun sdb parts m => ⟨rfl, rfl, rfl, rfl, rfl, fun dbid => rfl, rfl⟩,
    fun sdb parts m pid => ⟨rfl, rfl, rfl⟩⟩

/-- C8: the view execution context acquired by the view branch of
ProjectDataNode.query and the ignore execution context acquired by the
CreateView validation are released on every execution path: both operations
leave the context state exactly as they found it, whatever the outcome of
the nested query. -/
theorem view_context_released_on_all_paths :
    (∀ env query_df collab projectName q st,
      (project_datanode_query env query_df collab projectName q st).2 = st) ∧
    (∀ isSelect fetch persist st,
      (answer_create_view_check isSelect fetch persist st).2 = st) := by
  constructor
  · intro env qdf collab proj q st
    obtain ⟨ts, ft, w, lim⟩ := q
    cases ft with
    | join l r => rfl
    | tbl parts =>
      cases parts with
      | nil => rfl
      | cons p0 rest =>
        simp only [project_datanode_query]
        repeat' split
        all_goals first
          | rfl
          | exact release_set_context _ _ _
  · intro isSelect fetch persist st
    simp only [answer_create_view_check]
    repeat' split
    all_goals first
      | rfl
      | exact release_set_context _ _ _

/-- Contribution of one model record to the under-one-hour test of the
shortest-training fold. -/
theorem under_hour_step (now : Int) (acc : Option Int) (m : ModelTrainRec) :
    under_hour (shortest_training_step now acc m) = true ↔
      (under_hour acc = true ∨
        ((m.status = .generating ∨ m.status = .training) ∧
         ∃ s, m.training_start_at = some s ∧ m.training_stop_at = none ∧
           now - s < 3600)) := by
  by_cases hs : m.status = .generating ∨ m.status = .training
  · rw [shortest_training_step, if_pos hs]
    cases hstart : m.training_start_at with
    | none => simp [hstart, hs]
    | some s =>
      cases hstop : m.training_stop_at with
      | some stopAt => simp [hstart, hstop, hs]
      | none =>
        cases acc with
        | none => simp [hstart, hstop, hs, under_hour]
        | some a =>
          by_cases hlt : now - s < a
          · simp [hstart, hstop, hs, under_hour, hlt]
            omega
          · simp [hstart, hstop, hs, under_hour, hlt]
            omega
  · rw [shortest_training_step, if_neg hs]
    simp [hs]

/-- Characterization of the shortest-training fold: the guard condition
holds for some accumulator exactly when the accumulator already satisfies it
or some list element is an eligible training under one hour. -/
theorem under_hour_foldl (now : Int) (l : List ModelTrainRec) :
    ∀ acc, under_hour (l.foldl (shortest_training_step now) acc) = true ↔
      (under_hour acc = true ∨ ∃ m ∈ l,
        (m.status = .generating ∨ m.status = .training) ∧
        ∃ s, m.training_start_at = some s ∧ m.training_stop_at = none ∧
          now - s < 3600) := by
  induction l with
  | nil => intro acc; simp
  | cons m l ih =>
    intro acc
    rw [List.foldl_cons, ih (shortest_training_step now acc m),
      under_hour_step, or_assoc]
    refine or_congr Iff.rfl ?_
    constructor
    · rintro (hm | ⟨x, hx, hP⟩)
      · exact ⟨m, List.mem_cons_self m l, hm⟩
      · exact ⟨x, List.mem_cons_of_mem m hx, hP⟩
    · rintro ⟨x, hx, hP⟩
      rcases List.mem_cons.mp hx with rfl | hx2
      · exact Or.inl hP
      · exact Or.inr ⟨x, hx2, hP⟩

/-- C5: the training-concurrency guard raises exactly in hosted mode with
user class 0 when some model record is in status TRAINING or GENERATING with
a start time, no stop time and an elapsed time under one hour; and both the
retrain and the finetune paths raise the guard error before delegating to
the model controller (the delegate is invoked only when the guard does not
raise). -/
theorem retrain_finetune_training_guard :
    (∀ (is_cloud : Bool) (user_class : Nat) (models : List ModelTrainRec)
        (now : Int),
      _sync_predictor_check is_cloud user_class models now = true ↔
        (is_cloud = true ∧ user_class = 0 ∧ ∃ m ∈ models,
          (m.status = .generating ∨ m.status = .training) ∧
          ∃ s, m.training_start_at = some s ∧ m.training_stop_at = none ∧
            now - s < 3600)) ∧
    (∀ is_cloud user_class models now delegate,
      (_sync_predictor_check is_cloud user_class models now = true →
        answer_retrain_predictor (.ok ()) is_cloud user_class models now
          delegate = (.error (sync_check_error ("retrain")), false) ∧
        answer_finetune_predictor (.ok ()) is_cloud user_class models now
          delegate = (.error (sync_check_error ("finetune")), false)) ∧
      (_sync_predictor_check is_cloud user_class models now = false →
        (answer_retrain_predictor (.ok ()) is_cloud user_class models now
          delegate).2 = true ∧
        (answer_finetune_predictor (.ok ()) is_cloud user_class models now
          delegate).2 = true)) := by
  constructor
  · intro is_cloud user_class models now
    by_cases h : is_cloud = true ∧ user_class = 0
    · rw [_sync_predictor_check, if_pos h, shortest_training,
        under_hour_foldl]
      simp [under_hour, h.1, h.2]
    · rw [_sync_predictor_check, if_neg h]
      constructor
      · intro hx; exact absurd hx (by simp)
      · rintro ⟨h1, h2, -⟩; exact absurd ⟨h1, h2⟩ h
  · intro is_cloud user_class models now delegate
    constructor
    · intro h
      constructor
      · simp [answer_retrain_predictor, h]
      · simp [answer_finetune_predictor, h]
    · intro h
      constructor
      · simp only [answer_retrain_predictor, h]
        cases delegate <;> simp
      · simp only [answer_finetune_predictor, h]
        cases delegate <;> simp

/-- C5 witness: with the hosted flag set, user class 0 and one model
training for 100 seconds, both retrain and finetune raise the guard error
without invoking the delegate. -/
theorem retrain_finetune_training_guard_witness :
    answer_retrain_predictor (.ok ()) true 0 [sample_training_model] 100
      (.ok ⟨[], []⟩) = (.error (sync_check_error ("retrain")), false) ∧
    answer_finetune_predictor (.ok ()) true 0 [sample_training_model] 100
      (.ok ⟨[], []⟩) = (.error (sync_check_error ("finetune")), false) :=
  (retrain_finetune_training_guard.2 true 0 [sample_training_model] 100
    (.ok ⟨[], []⟩)).1 (by decide)

/-- C9: in the SKILLS and AGENTS producers the PROJECT column of every
returned row equals the pushed-down filter constant (null when absent),
independent of the owning project stored in the controller record, and the
extraction yields no constant whenever the where clause is a top-level AND
chain. -/
theorem skills_agents_project_column_is_pushdown :
    (∀ env q pn df, extract_project_filter q.whereCond = .ok pn →
      _get_skills env q = .ok df →
      ∀ row ∈ df.rows, row.getD 1 Value.null = pnValue pn) ∧
    (∀ env q pn df, extract_project_filter q.whereCond = .ok pn →
      _get_agents env q = .ok df →
      ∀ row ∈ df.rows, row.getD 1 Value.null = pnValue pn) ∧
    (∀ a b, extract_project_filter (some (.binop ("and") a b)) = .ok none) := by
  refine ⟨?_, ?_, fun a b => rfl⟩
  · intro env q pn df h hdf row hrow
    simp only [_get_skills, h, Except.bind] at hdf
    cases hdf
    simp only [List.mem_map] at hrow
    obtain ⟨s, -, rfl⟩ := hrow
    rfl
  · intro env q pn df h hdf row hrow
    simp only [_get_agents, h, Except.bind] at hdf
    cases hdf
    simp only [List.mem_map] at hrow
    obtain ⟨a, -, rfl⟩ := hrow
    rfl

/-- C9 witness: a skill owned by project proj1, queried with an AND chain
that even contains a project equality, yields a row whose PROJECT column is
null, not proj1. -/
theorem skills_agents_project_column_witness :
    ([Value.str ("sk1"), Value.null, Value.str ("qa"),
      Value.null] : List Value).getD 1 Value.null = pnValue none :=
  skills_agents_project_column_is_pushdown.1
    { skills := [{ name := "sk1", project := "proj1", typ := "qa" }] }
    ⟨[], .tbl ["skills"],
      some (.binop ("and")
        (.binop ("=") (.ident ["project"]) (.const (.str ("proj1"))))
        (.binop ("=") (.ident ["name"]) (.const (.str ("sk1"))))), none⟩
    none
    ⟨registryColumns ("SKILLS"),
      [[Value.str ("sk1"), Value.null, Value.str ("qa"), Value.null]]⟩
    (by rfl) (by rfl)
    [Value.str ("sk1"), Value.null, Value.str ("qa"), Value.null]
    (by simp)

/-- C7: an integration whose table listing raises contributes nothing to the
TABLES producer, which behaves exactly as if that integration had an empty
table list: the rows of every other source are returned and the exception is
not propagated. -/
theorem failing_integration_skipped (env : Env) (q : SelectQ)
    (i : IntegrationRec) (e : PyExc) (pre post : List IntegrationRec)
    (hsplit : env.integrations = pre ++ i :: post)
    (hres : i.tablesResult = .error e) :
    _get_tables_rows env q =
      _get_tables_rows
        { env with integrations :=
            pre ++ { i with tablesResult := .ok [] } :: post } q := by
  unfold _get_tables_rows
  rw [hsplit]
  simp only [List.filter_append, List.filter_cons, List.flatMap_append]
  split_ifs
  · simp [List.flatMap_cons, hres]
  · rfl

/-- Extraction of the project filter only fails with AttributeError. -/
theorem extract_project_filter_error (w : Option Expr) (e : PyExc)
    (h : extract_project_filter w = .error e) :
    e = .attributeError ("object has no attribute parts") := by
  rcases w with _ | ex
  · simp [extract_project_filter] at h
  · cases ex with
    | const v => simp [extract_project_filter] at h
    | ident parts => simp [extract_project_filter] at h
    | star => simp [extract_project_filter] at h
    | binop op lhs rhs =>
      simp only [extract_project_filter] at h
      split at h
      · cases lhs with
        | ident parts =>
          repeat' split at h
          all_goals simp at h
        | const v => exact (Except.error.inj h).symm
        | star => exact (Except.error.inj h).symm
        | binop op2 l2 r2 => exact (Except.error.inj h).symm
      · simp at h

/-- Resolution of a project id only fails with ValueError. -/
theorem project_controller_get_error (env : Env) (pn : Option Value)
    (e : PyExc) (h : project_controller_get env pn = .error e) :
    ∃ s, e = .valueError s := by
  unfold project_controller_get at h
  split at h
  · split at h
    · simp at h
    · exact ⟨_, (Except.error.inj h).symm⟩
  · exact ⟨_, (Except.error.inj h).symm⟩

/-- Producers never raise the BadTable error: only the table-count gate of
the query operation does. -/
theorem producer_no_badtable (env : Env) (name : String) (q : SelectQ)
    (m : String) :
    information_schema_producer env name q ≠ .error (.badTable m) := by
  have hstep : ∀ (w : Option Expr) (build : Option Value → Except PyExc DataFrame),
      (∀ pn, ∀ m2, build pn ≠ .error (.badTable m2)) →
      (do
        let pn ← extract_project_filter w
        build pn) ≠ .error (.badTable m) := by
    intro w build hb h
    cases hw : extract_project_filter w with
    | ok pn =>
      rw [hw] at h
      exact hb pn m h
    | error e =>
      rw [hw] at h
      have he := Except.error.inj h
      have ha := extract_project_filter_error _ _ hw
      rw [ha] at he
      exact PyExc.noConfusion he
  intro h
  unfold information_schema_producer at h
  split at h <;> try simp at h
  · -- COLUMNS
    unfold _get_columns at h
    split at h <;> simp at h
  · -- JOBS
    unfold _get_jobs at h
    exact hstep q.whereCond _ (fun pn m2 hx => Except.noConfusion hx) h
  · -- JOBS_HISTORY
    unfold _get_jobs_history at h
    exact hstep q.whereCond _ (fun pn m2 hx => Except.noConfusion hx) h
  · -- MDB_TRIGGERS
    unfold _get_triggers at h
    exact hstep q.whereCond _ (fun pn m2 hx => Except.noConfusion hx) h
  · -- CHATBOTS
    unfold _get_chatbots at h
    exact hstep q.whereCond _ (fun pn m2 hx => Except.noConfusion hx) h
  · -- KNOWLEDGE_BASES
    unfold _get_knowledge_bases at h
    refine hstep q.whereCond _ ?_ h
    intro pn m2 hx
    cases hp : project_controller_get env pn with
    | ok pid =>
      rw [hp] at hx
      exact Except.noConfusion hx
    | error e2 =>
      rw [hp] at hx
      have he := Except.error.inj hx
      obtain ⟨s, rfl⟩ := project_controller_get_error env pn e2 hp
      exact PyExc.noConfusion he
  · -- SKILLS
    unfold _get_skills at h
    exact hstep q.whereCond _ (fun pn m2 hx => Except.noConfusion hx) h
  · -- AGENTS
    unfold _get_agents at h
    exact hstep q.whereCond _ (fun pn m2 hx => Except.noConfusion hx) h

/-- C2 counterexample: a query referencing exactly one defined virtual table
(KNOWLEDGE_BASES, filtered by a project that does not exist) raises a
ValueError from the producer rather than returning a (rows, columns) result,
contradicting the claim that every such query returns a result. -/
theorem knowledge_bases_query_error_counterexample :
    information_schema_query {} (fun df _ => df)
        ⟨[], .tbl ["knowledge_bases"],
          some (.binop ("=") (.ident ["project"]) (.const (.str ("nope")))),
          none⟩
      = .error (.valueError ("Project not found: nope")) ∧
    has_table ("knowledge_bases") = true := by decide

/-- C2 (amended): the table-count gate works as specified: a statement
referencing a number of tables different from one raises BadTable; a
statement referencing exactly one defined virtual table never raises
BadTable, and returns a (rows, column_descriptors) result whenever the
producer of that table succeeds (the KNOWLEDGE_BASES producer can fail on an
unresolvable project). -/
theorem information_schema_query_badtable_gate :
    (∀ env query_df q, (get_all_tables q.fromTable).length ≠ 1 →
      information_schema_query env query_df q = .error (.badTable
        ("Only one table can be used in query to information_schema"))) ∧
    (∀ env query_df q t, get_all_tables q.fromTable = [t] →
      has_table t = true →
      ∀ m, information_schema_query env query_df q
        ≠ .error (.badTable m)) ∧
    (∀ env query_df q t df, get_all_tables q.fromTable = [t] →
      has_table t = true →
      information_schema_producer env (py_upper t) q = .ok df →
      information_schema_query env query_df q
        = .ok (query_df df q, columns_info (query_df df q))) := by
  refine ⟨?_, ?_, ?_⟩
  · intro env qdf q hlen
    unfold information_schema_query
    cases hl : get_all_tables q.fromTable with
    | nil => rfl
    | cons t rest =>
      cases rest with
      | nil => rw [hl] at hlen; simp at hlen
      | cons t2 rest2 => rfl
  · intro env qdf q t hl ht m h
    have hq : information_schema_query env qdf q =
        (if (informationSchemaTables.lookup (py_upper t)).isNone = true then
          .error (.notSupported ("Information schema: Not implemented."))
        else do
          let df ← information_schema_producer env (py_upper t) q
          let data := qdf df q
          .ok (data, columns_info data)) := by
      unfold information_schema_query
      rw [hl]
    rw [hq] at h
    split at h
    · simp at h
    · cases hp : information_schema_producer env (py_upper t) q with
      | ok df =>
        rw [hp] at h
        exact Except.noConfusion h
      | error e =>
        rw [hp] at h
        have he := Except.error.inj h
        rw [he] at hp
        exact producer_no_badtable env (py_upper t) q m hp
  · intro env qdf q t df hl ht hp
    have hq : information_schema_query env qdf q =
        (if (informationSchemaTables.lookup (py_upper t)).isNone = true then
          .error (.notSupported ("Information schema: Not implemented."))
        else do
          let df2 ← information_schema_producer env (py_upper t) q
          let data := qdf df2 q
          .ok (data, columns_info data)) := by
      unfold information_schema_query
      rw [hl]
    rw [hq]
    split
    · next h2 =>
        rw [has_table] at ht
        rw [Option.isNone_iff_eq_none] at h2
        rw [h2] at ht
        simp at ht
    · rw [hp]
      rfl

/-- C2 witness: a two-table join raises BadTable; a single-table query over
SKILLS passes the gate and returns the evaluated result. -/
theorem information_schema_query_badtable_gate_witness :
    information_schema_query {} (fun df _ => df)
        ⟨[], .join (.tbl ["TABLES"]) (.tbl ["COLUMNS"]), none, none⟩
      = .error (.badTable
        ("Only one table can be used in query to information_schema")) ∧
    information_schema_query {} (fun df _ => df)
        ⟨[], .tbl ["skills"], none, none⟩
      = .ok (⟨registryColumns ("SKILLS"), []⟩,
        columns_info ⟨registryColumns ("SKILLS"), []⟩) :=
  ⟨information_schema_query_badtable_gate.1 {} (fun df _ => df)
      ⟨[], .join (.tbl ["TABLES"]) (.tbl ["COLUMNS"]), none, none⟩
      (by decide),
   information_schema_query_badtable_gate.2.2 {} (fun df _ => df)
      ⟨[], .tbl ["skills"], none, none⟩ ("skills")
      ⟨registryColumns ("SKILLS"), []⟩ (by decide) (by decide) (by decide)⟩

/-- C7 witness: with one healthy integration and one whose listing raises,
the producer output equals the output with the failing integration replaced
by an empty one. -/
theorem failing_integration_skipped_witness :
    _get_tables_rows
      { integrations := [sample_ok_integration, sample_bad_integration] }
      sample_tables_query =
    _get_tables_rows
      { ({ integrations :=
            [sample_ok_integration, sample_bad_integration] } : Env) with
          integrations := [sample_ok_integration] ++
            { sample_bad_integration with tablesResult := .ok [] } :: [] }
      sample_tables_query :=
  failing_integration_skipped
    { integrations := [sample_ok_integration, sample_bad_integration] }
    sample_tables_query sample_bad_integration
    (.other ("connection refused"))
    [sample_ok_integration] [] (by rfl) (by rfl)

/-- C3: for a catalog-backed table name (with predictors as a legacy alias
of models), ProjectDataNode.query forwards to the virtual catalog a clone of
the statement whose WHERE clause is the original one AND-combined with a
project equality (or exactly that equality when the original WHERE is
absent), returns the catalog result unchanged and leaves the context state
untouched. -/
theorem project_query_injects_project_filter (env : Env)
    (query_df : DataFrame → SelectQ → DataFrame)
    (collab : ProjectCollaborators) (projectName : String) (st : CtxState)
    (ts : List Expr) (rest : List String) (w : Option Expr)
    (lim : Option Nat) (t : String)
    (h : t ∈ projectCatalogTables ∨ t = "predictors") :
    project_datanode_query env query_df collab projectName
      ⟨ts, .tbl (t :: rest), w, lim⟩ st =
      (information_schema_query env query_df
        ⟨ts, .tbl ((if t = "predictors" then "models" else t) :: rest),
          some (match w with
            | none => project_eq_filter projectName
            | some w0 => .binop ("and") w0 (project_eq_filter projectName)),
          lim⟩, st) := by
  rcases h with h | h
  · have hne : t ≠ "predictors" := by
      intro he
      rw [he] at h
      exact absurd h (by decide)
    simp only [project_datanode_query, if_neg hne, if_pos h]
  · subst h
    simp [project_datanode_query, projectCatalogTables]

/-- C3 witness: a query over jobs with an existing WHERE clause is forwarded
with the AND-combined project equality. -/
theorem project_query_injects_project_filter_witness :
    project_datanode_query {} (fun df _ => df)
      ⟨fun _ => .error (.other ("nv")), fun _ => .error (.other ("nv"))⟩
      ("proj1")
      ⟨[], .tbl ["jobs"],
        some (.binop ("=") (.ident ["name"]) (.const (.str ("j1")))), none⟩
      [] =
      (information_schema_query {} (fun df _ => df)
        ⟨[], .tbl ["jobs"],
          some (.binop ("and")
            (.binop ("=") (.ident ["name"]) (.const (.str ("j1"))))
            (project_eq_filter ("proj1"))), none⟩, []) :=
  project_query_injects_project_filter {} (fun df _ => df)
    ⟨fun _ => .error (.other ("nv")), fun _ => .error (.other ("nv"))⟩
    ("proj1") [] [] []
    (some (.binop ("=") (.ident ["name"]) (.const (.str ("j1"))))) none
    ("jobs") (Or.inl (by decide))

/-- C1 counterexample: under the SHOW TABLES rewrite for the default schema
mindsdb (and with the residual evaluator as the identity, which can only be
generous to the claim), the result contains zero SYSTEM VIEW rows although
24 virtual tables are defined: the pushed-down table_schema constant is
compared against the virtual table names and filters them all out. -/
theorem show_tables_drops_system_view_rows_counterexample :
    (information_schema_query sample_show_env (fun df _ => df)
        (show_tables_statement none
          { category := "tables" })).toOption.map
      (fun rc => rc.1.rows.countP
        (fun row => row.getD 3 Value.null == Value.str ("SYSTEM VIEW")))
      = some 0 ∧
    informationSchemaTables.length = 24 := by decide

/-- C1 (amended): a SYSTEM VIEW row for a virtual table name n is produced
by the TABLES producer exactly when n is defined and the pushed-down
table_schema constant is absent or equal to n; in particular, under the
SHOW TABLES rewrite the row for n appears exactly when the current schema
equals n, so the usual schema (such as mindsdb) yields no SYSTEM VIEW rows
at all.  The hypotheses state that no registered source is itself named
information_schema. -/
theorem system_view_rows_follow_table_schema_pushdown (env : Env)
    (hpersis : ∀ d ∈ env.persisDatanodes, d.name ≠ "information_schema")
    (hint : ∀ i ∈ env.integrations,
      py_lower i.name ≠ "information_schema")
    (hproj : ∀ p ∈ env.projects, py_lower p.name ≠ "information_schema") :
    (∀ (q : SelectQ) (n : String),
      ({ TABLE_SCHEMA := "information_schema", TABLE_NAME := n,
         TABLE_TYPE := "SYSTEM VIEW" } : TablesRow)
        ∈ _get_tables_rows env q ↔
      (n ∈ informationSchemaTables.map Prod.fst ∧
        tablesRowMatches (extract_table_schema q.whereCond) n = true)) ∧
    (∀ (sdb : Option String) (n : String),
      ({ TABLE_SCHEMA := "information_schema", TABLE_NAME := n,
         TABLE_TYPE := "SYSTEM VIEW" } : TablesRow)
        ∈ _get_tables_rows env
            (show_tables_statement sdb { category := "tables" }) ↔
      (n ∈ informationSchemaTables.map Prod.fst ∧
        sdb.getD ("mindsdb") = n)) := by
  have main : ∀ (q : SelectQ) (n : String),
      ({ TABLE_SCHEMA := "information_schema", TABLE_NAME := n,
         TABLE_TYPE := "SYSTEM VIEW" } : TablesRow)
        ∈ _get_tables_rows env q ↔
      (n ∈ informationSchemaTables.map Prod.fst ∧
        tablesRowMatches (extract_table_schema q.whereCond) n = true) := by
    intro q n
    unfold _get_tables_rows
    simp only [List.mem_append, List.mem_filterMap, List.mem_flatMap]
    constructor
    · rintro (((⟨tc, htc, heq⟩ | ⟨ds, hds, hrow⟩) | ⟨i, hi, hrow⟩) |
        ⟨p, hp, hrow⟩)
      · split at heq
        · next hm =>
            have hrow := Option.some.inj heq
            have hname : tc.1 = n := congrArg TablesRow.TABLE_NAME hrow
            constructor
            · exact List.mem_map.mpr ⟨tc, htc, hname⟩
            · rw [← hname]; exact hm
        · exact Option.noConfusion heq
      · exfalso
        split at hrow
        · obtain ⟨t2, -, hrow2⟩ := List.mem_map.mp hrow
          have := congrArg TablesRow.TABLE_SCHEMA hrow2
          exact hpersis ds hds this
        · simp at hrow
      · exfalso
        have hi2 := List.mem_filter.mp hi
        split at hrow
        · cases hres : i.tablesResult with
          | ok rows =>
            rw [hres] at hrow
            obtain ⟨r2, -, hrow2⟩ := List.mem_map.mp hrow
            have := congrArg TablesRow.TABLE_SCHEMA hrow2
            exact hint i hi2.1 this
          | error e =>
            rw [hres] at hrow
            simp at hrow
        · simp at hrow
      · exfalso
        split at hrow
        · obtain ⟨r2, -, hrow2⟩ := List.mem_map.mp hrow
          have := congrArg TablesRow.TABLE_SCHEMA hrow2
          exact hproj p hp this
        · simp at hrow
    · rintro ⟨hmem, hmatch⟩
      obtain ⟨tc, htc, hfst⟩ := List.mem_map.mp hmem
      left
      left
      left
      refine ⟨tc, htc, ?_⟩
      rw [hfst, if_pos hmatch]
  refine ⟨main, ?_⟩
  intro sdb n
  rw [main]
  have hx : extract_table_schema
      (show_tables_statement sdb { category := "tables" }).whereCond =
      some (.str (sdb.getD ("mindsdb"))) := rfl
  rw [hx]
  simp [tablesRowMatches]

/-- C1 witness: in the sample environment the SHOW TABLES rewrite keeps a
SYSTEM VIEW row for MODELS only if the current schema literally equals
MODELS; with the default schema the membership reduces to a false
condition. -/
theorem system_view_rows_follow_pushdown_witness :
    ({ TABLE_SCHEMA := "information_schema", TABLE_NAME := "MODELS",
       TABLE_TYPE := "SYSTEM VIEW" } : TablesRow)
      ∈ _get_tables_rows sample_show_env
          (show_tables_statement none { category := "tables" }) ↔
    ("MODELS" ∈ informationSchemaTables.map Prod.fst ∧
      (none : Option String).getD ("mindsdb") = "MODELS") :=
  (system_view_rows_follow_table_schema_pushdown sample_show_env
    (by decide) (by decide) (by decide)).2 none ("MODELS")

end MindsDB
